import Mathlib

/-!
Verification of the illegal-construction-detection pipeline (src/code.py).

The script loads zoning parcels and overwrites their `Max Height`/`Setback`
attributes with constants, builds a height-above-ground raster from a surface
model and a terrain model, reconstructs building footprints from raw OSM
node/way topology, spatially joins buildings to parcels, derives each
parcel's buildable area by negative buffering, and classifies each joined
building's violation state.

We shallowly embed each stage: pandas/geopandas columns become record fields,
row-wise loops become list recursions, Python exceptions become `Except`/
`Option` failures, floats become `ℚ` (or `ℝ` for the set-theoretic geometry
model), and the shapely `within` predicate is passed in as a boolean oracle
because the pipeline only ever branches on its boolean answer.
-/

namespace IllegalConstruction

/-! ### Step 11: violation classifier (src/code.py lines 101-111) -/

/-- Embedding of `classify_violation` (src/code.py lines 101-109): branches on
`row["violation"]` and `row["boundary_violation"]` exactly as the Python
`if/elif/else` chain does. -/
def classify_violation (violation boundary_violation : Bool) : String :=
  if violation && boundary_violation then "Both"
  else if violation then "Height"
  else if boundary_violation then "Boundary"
  else "None"

/-! ### Step 5: height map (src/code.py lines 42-43)

`height_map = dsm_array - resampled_dtm` followed by
`height_map[height_map < 0] = 0`. We model a clipped 2-D array of shape
`m × n` as a function `Fin m → Fin n → ℚ`. -/

/-- Pixelwise difference `dsm_array - resampled_dtm` (src/code.py line 42). -/
def rasterSub (m n : ℕ) (a b : Fin m → Fin n → ℚ) : Fin m → Fin n → ℚ :=
  fun i j => a i j - b i j

/-- In-place masking `height_map[height_map < 0] = 0` (src/code.py line 43):
every strictly negative pixel is overwritten by zero. -/
def clampNeg (m n : ℕ) (a : Fin m → Fin n → ℚ) : Fin m → Fin n → ℚ :=
  fun i j => if a i j < 0 then 0 else a i j

/-- The height-above-ground raster of src/code.py lines 42-43: the clipped
surface array minus the resampled terrain array, negatives cleaned to zero. -/
def height_map (m n : ℕ) (dsm_array resampled_dtm : Fin m → Fin n → ℚ) :
    Fin m → Fin n → ℚ :=
  clampNeg m n (rasterSub m n dsm_array resampled_dtm)

/-! ### Tag parsing and height estimation (src/code.py lines 60-62)

`est_height = float(height) if height else (int(levels) * 3 if levels else None)`.

`tags.get(...)` yields `None` or a string; `if height` is Python truthiness
(false for `None` and for the empty string). `float(...)`/`int(...)` raise
`ValueError` on a non-numeric string, aborting the whole run; we model the
builtins on plain decimal literals (optional sign, digits, optional fractional
part; no exponents/whitespace/inf/nan, which do not occur in the tags here). -/

/-- Numeric value of a digit string (most significant digit first). -/
def natVal (l : List Char) : ℕ :=
  l.foldl (fun a c => 10 * a + (c.toNat - 48)) 0

/-- A nonempty all-digit character list. -/
def isDigits (l : List Char) : Bool :=
  !l.isEmpty && l.all Char.isDigit

/-- Model of Python `int(s)` on plain decimal integer literals: optional sign
followed by digits; any other shape raises `ValueError`, modelled as `none`. -/
def pyInt? (s : String) : Option ℤ :=
  match s.toList with
  | '-' :: rest => if isDigits rest then some (-(natVal rest : ℤ)) else none
  | '+' :: rest => if isDigits rest then some (natVal rest : ℤ) else none
  | l => if isDigits l then some (natVal l : ℤ) else none

/-- Unsigned decimal from an integer part and a fractional part: at least one
of the two nonempty, both all digits. -/
def decVal? (ip fp : List Char) : Option ℚ :=
  if (!ip.isEmpty || !fp.isEmpty) && ip.all Char.isDigit && fp.all Char.isDigit
  then some ((natVal ip : ℚ) + (natVal fp : ℚ) / ((10 : ℚ) ^ fp.length))
  else none

/-- Split a character list on every occurrence of a separator character
(the list-level analogue of `str.split(sep)`). -/
def splitOnChar (c : Char) : List Char → List (List Char)
  | [] => [[]]
  | x :: xs =>
    let r := splitOnChar c xs
    if x == c then [] :: r
    else
      match r with
      | [] => [[x]]
      | h :: t => (x :: h) :: t

/-- Unsigned part of a Python float literal: `digits`, `digits.digits`,
`digits.` or `.digits`. -/
def pyFloatCore? (l : List Char) : Option ℚ :=
  match splitOnChar '.' l with
  | [ip] => if isDigits ip then some (natVal ip : ℚ) else none
  | [ip, fp] => decVal? ip fp
  | _ => none

/-- Model of Python `float(s)` on plain decimal literals: optional sign then
an unsigned decimal; any other shape raises `ValueError`, modelled as `none`. -/
def pyFloat? (s : String) : Option ℚ :=
  match s.toList with
  | '-' :: rest => (pyFloatCore? rest).map Neg.neg
  | '+' :: rest => pyFloatCore? rest
  | l => pyFloatCore? l

/-- Python truthiness of `tags.get(k)`: false for `None` and for `""`. -/
def truthy (s : Option String) : Bool :=
  match s with
  | none => false
  | some t => !(t = "")

/-- Embedding of src/code.py line 62:
`est_height = float(height) if height else (int(levels) * 3 if levels else None)`.
A truthy `height` tag is passed to `float`, whose `ValueError` on an
unparsable value propagates (`Except.error`), aborting the run; only a falsy
(absent or empty) `height` falls through to `levels`, and likewise for `int`. -/
def est_height (height levels : Option String) : Except Unit (Option ℚ) :=
  if truthy height then
    match pyFloat? (height.getD "") with
    | some v => .ok (some v)
    | none => .error ()
  else if truthy levels then
    match pyInt? (levels.getD "") with
    | some n => .ok (some ((n : ℚ) * 3))
    | none => .error ()
  else .ok none

/-! ### Step 6: footprint reconstruction (src/code.py lines 50-68)

`data["elements"]` holds node elements (id, lon, lat) and way elements
(ordered node-id list plus a tag dictionary). The dict comprehension on
line 51 builds `node_map`; the loop on lines 53-68 keeps building-tagged ways,
resolves node ids (silently dropping unresolvable ones), requires at least 3
resolved coordinates, and constructs a `Polygon` plus estimated height. -/

/-- A longitude/latitude pair. -/
abbrev Coord := ℚ × ℚ

/-- One entry of the raw OSM `elements` array: a node with coordinates or a
way with node references and tags (a tag dictionary is an association list
with unique keys). -/
inductive Element where
  | node (id : ℕ) (lon lat : ℚ)
  | way (nodes : List ℕ) (tags : List (String × String))

/-- Python `k in tags`. -/
def hasKey (tags : List (String × String)) (k : String) : Bool :=
  (tags.find? (fun p => p.1 == k)).isSome

/-- Python `tags.get(k)`: `None` when the key is absent. -/
def getTag (tags : List (String × String)) (k : String) : Option String :=
  (tags.find? (fun p => p.1 == k)).map (fun p => p.2)

/-- The `(id, (lon, lat))` pairs contributed by node elements, in order
(src/code.py line 51). -/
def nodeEntries (els : List Element) : List (ℕ × Coord) :=
  els.filterMap fun e =>
    match e with
    | .node i lo la => some (i, (lo, la))
    | .way _ _ => none

/-- Lookup in `node_map` (src/code.py line 51). A Python dict comprehension
keeps the last entry for a duplicated id, hence the `reverse`. -/
def nodeLookup (els : List Element) (nid : ℕ) : Option Coord :=
  ((nodeEntries els).reverse.find? (fun p => p.1 == nid)).map (fun p => p.2)

/-- `[node_map[nid] for nid in nodes if nid in node_map]`
(src/code.py line 56): resolve node references, silently dropping those
missing from the node map. -/
def coordsOf (els : List Element) (nodes : List ℕ) : List Coord :=
  nodes.filterMap (nodeLookup els)

/-- A reconstructed building record (src/code.py lines 63-68), generic in the
geometry representation `G`. -/
structure Building (G : Type) where
  geometry : G
  height : Option ℚ
  name : String
  levels : Option String

/-- The shapely `Polygon` constructor stores a closed exterior ring: the
coordinate sequence as given, with the first coordinate appended at the end
unless the sequence already ends with it (src/code.py line 58). -/
def polygonRing (l : List Coord) : List Coord :=
  match l.head? with
  | none => []
  | some p => if l.getLast? = some p then l else l ++ [p]

/-- One iteration of the loop on src/code.py lines 53-68: a way tagged as a
building with at least 3 resolvable coordinates yields a feature; other
elements yield nothing; an unparsable height/levels tag raises out of the
loop. -/
def buildFeature (els : List Element) (e : Element) :
    Except Unit (Option (Building (List Coord))) :=
  match e with
  | .node _ _ _ => .ok none
  | .way nodes tags =>
    if hasKey tags "building" then
      let coords := coordsOf els nodes
      if 3 ≤ coords.length then
        match est_height (getTag tags "height") (getTag tags "building:levels") with
        | .error e => .error e
        | .ok h =>
          .ok (some { geometry := coords, height := h,
                      name := (getTag tags "name").getD "", levels := getTag tags "building:levels" })
      else .ok none
    else .ok none

/-- The loop of src/code.py lines 53-68 over a suffix of the element list,
accumulating `features` in order; the first raised `ValueError` aborts. -/
def reconstructAux (els : List Element) : List Element → Except Unit (List (Building (List Coord)))
  | [] => .ok []
  | e :: rest =>
    match buildFeature els e with
    | .error err => .error err
    | .ok b? =>
      match reconstructAux els rest with
      | .error err => .error err
      | .ok bs => .ok (match b? with | some b => b :: bs | none => bs)

/-- The full footprint reconstruction of src/code.py lines 50-68: node map
from all elements, then the feature loop over all elements. -/
def reconstruct (els : List Element) : Except Unit (List (Building (List Coord))) :=
  reconstructAux els els

/-- Whether an element passes the emission gates of src/code.py lines 54-57:
a way, tagged as a building, with at least 3 resolvable coordinates. -/
def emitsBuilding (els : List Element) (e : Element) : Bool :=
  match e with
  | .node _ _ _ => false
  | .way nodes tags => hasKey tags "building" && decide (3 ≤ (coordsOf els nodes).length)

/-- A small concrete OSM export: three nodes and one building-tagged way
forming a triangle. -/
def sampleElements : List Element :=
  [.node 1 0 0, .node 2 1 0, .node 3 0 1, .way [1, 2, 3] [("building", "yes")]]

/-- The building collection the reconstruction yields on `sampleElements`. -/
def sampleBuildings : List (Building (List Coord)) :=
  [{ geometry := [(0, 0), (1, 0), (0, 1)], height := none, name := "", levels := none }]

/-! ### Steps 1, 7, 8, 9, 10, 11: the parcel/join pipeline

Geometry is abstract here: the pipeline only passes geometries to shapely's
`within` and to the CRS/buffer operations, so we embed them as an opaque type
`G`, a boolean containment oracle `w`, and geometry transformers. -/

/-- A parcel as read from the shapefile, with whatever attribute values the
input carries (src/code.py line 11). -/
structure RawParcel (G : Type) where
  geometry : G
  maxHeight : ℚ
  setback : ℚ

/-- A zoning parcel after loading: `Max Height` and `Setback` columns. -/
structure Zone (G : Type) where
  geometry : G
  maxHeight : ℚ
  setback : ℚ

/-- A zoning parcel after the `buildable_area` column is added (line 85). -/
structure ZoneB (G : Type) where
  geometry : G
  maxHeight : ℚ
  setback : ℚ
  buildable_area : G

/-- Step 1 (src/code.py lines 11-13): load parcels and assign the constant
columns `zones["Max Height"] = 10.5` and `zones["Setback"] = 5.0`,
overwriting whatever the input carried. -/
def loadZones {G : Type} (raw : List (RawParcel G)) : List (Zone G) :=
  raw.map fun r => { geometry := r.geometry, maxHeight := 10.5, setback := 5.0 }

/-- `zones = zones.to_crs(dsm.crs)` (src/code.py line 20): reproject every
parcel geometry, leaving the attribute columns unchanged. -/
def toCrsZones {G : Type} (f : G → G) (zs : List (Zone G)) : List (Zone G) :=
  zs.map fun z => { geometry := f z.geometry, maxHeight := z.maxHeight, setback := z.setback }

/-- Step 8 (src/code.py lines 78-85): project to UTM, erode by the setback
(`buffer(-Setback)`), repair with `buffer(0)`, reproject back, and store the
result as the `buildable_area` column. `toUtm`, `fromUtm` and `buf` stand for
the geopandas `to_crs`/shapely `buffer` library calls. -/
def addBuildable {G : Type} (toUtm fromUtm : G → G) (buf : G → ℚ → G)
    (zs : List (Zone G)) : List (ZoneB G) :=
  zs.map fun z =>
    { geometry := z.geometry, maxHeight := z.maxHeight, setback := z.setback,
      buildable_area := fromUtm (buf (buf (toUtm z.geometry) (-z.setback)) 0) }

/-- A row of `buildings_within` (src/code.py line 74): the building columns,
the joined parcel's attribute columns, and the `index_right` label of the
joined parcel. -/
structure JoinRec (G : Type) where
  geometry : G
  height : Option ℚ
  name : String
  levels : Option String
  index_right : ℕ
  maxHeight : ℚ
  setback : ℚ

/-- The join records one building contributes when matched against the parcel
list starting at positional index `i`: one record per parcel whose geometry
contains the building (`predicate="within"`). -/
def sjoinZones {G : Type} (w : G → G → Bool) (b : Building G) :
    ℕ → List (Zone G) → List (JoinRec G)
  | _, [] => []
  | i, z :: zr =>
    if w b.geometry z.geometry then
      { geometry := b.geometry, height := b.height, name := b.name, levels := b.levels,
        index_right := i, maxHeight := z.maxHeight, setback := z.setback } ::
        sjoinZones w b (i + 1) zr
    else sjoinZones w b (i + 1) zr

/-- Step 7 (src/code.py line 74):
`gpd.sjoin(buildings_gdf, zones, predicate="within", how="inner")` — one
output row per (building, containing parcel) pair, buildings matching no
parcel dropped. -/
def sjoin {G : Type} (w : G → G → Bool) :
    List (Building G) → List (Zone G) → List (JoinRec G)
  | [], _ => []
  | b :: br, zs => sjoinZones w b 0 zs ++ sjoin w br zs

/-- Step 9 (src/code.py lines 89-95): for each joined building, look up the
parcel row whose index equals `index_right` (`.iloc[0]` raises `IndexError`
when no such row exists, modelled by `none`) and record
`not building.geometry.within(zone["buildable_area"])`. -/
def check_boundary {G : Type} (w : G → G → Bool) (zbs : List (ZoneB G)) :
    List (JoinRec G) → Option (List (JoinRec G × Bool))
  | [] => some []
  | r :: rest =>
    match zbs[r.index_right]? with
    | none => none
    | some z =>
      (check_boundary w zbs rest).map
        (fun l => (r, !(w r.geometry z.buildable_area)) :: l)

/-- Step 10 (src/code.py line 98) on one row: the pandas comparison
`buildings_within["height"] > buildings_within["Max Height"]`. A missing
height is `NaN` in the column, and `NaN > x` is `False`. -/
def heightGt (h : Option ℚ) (m : ℚ) : Bool :=
  match h with
  | none => false
  | some v => decide (m < v)

/-- A fully annotated row of `buildings_within` after steps 9-11. -/
structure AnnRec (G : Type) extends JoinRec G where
  boundary_violation : Bool
  violation : Bool
  violation_type : String

/-- Steps 9-11 (src/code.py lines 89-111): add the `boundary_violation`,
`violation` and `violation_type` columns. -/
def annotate {G : Type} (w : G → G → Bool) (zbs : List (ZoneB G))
    (recs : List (JoinRec G)) : Option (List (AnnRec G)) :=
  (check_boundary w zbs recs).map fun l =>
    l.map fun p =>
      { toJoinRec := p.1,
        boundary_violation := p.2,
        violation := heightGt p.1.height p.1.maxHeight,
        violation_type := classify_violation (heightGt p.1.height p.1.maxHeight) p.2 }

/-- A one-parcel buildable-area frame for concrete runs (geometry ids stand
for shapely geometries; the containment oracle compares ids). -/
def zoneBFix : ZoneB ℕ :=
  { geometry := 1, maxHeight := 10, setback := 5, buildable_area := 1 }

/-- A concrete join record: a building of height 12 joined to parcel 0. -/
def joinRecFix : JoinRec ℕ :=
  { geometry := 1, height := some 12, name := "b", levels := none,
    index_right := 0, maxHeight := 10, setback := 5 }

/-- The annotated record the pipeline produces from `joinRecFix` against
`zoneBFix` with an id-equality containment oracle. -/
def annRecFix : AnnRec ℕ :=
  { geometry := 1, height := some 12, name := "b", levels := none,
    index_right := 0, maxHeight := 10, setback := 5,
    boundary_violation := false, violation := true, violation_type := "Height" }

/-! ### Set-theoretic geometry model for the buildable-area invariant

Modelled from the spec: the shapely `buffer` library call (src/code.py
lines 81-82) is not part of the repository, so we model it on point sets in
the metric plane following the glossary — "Erosion/negative buffer: geometric
operation shrinking a polygon inward by a fixed distance" — with the CRS
round trip idealized as an exact bijection of the plane. -/

/-- A point of the (projected) plane. -/
abbrev Pt := ℝ × ℝ

/-- Positive (outward) buffering by `d`: all points within distance `d` of
the set. -/
def dilate (P : Set Pt) (d : ℝ) : Set Pt :=
  {p | ∃ q ∈ P, dist p q ≤ d}

/-- Erosion (inward buffering) by `d`: all points whose `d`-ball lies inside
the set. -/
def erodeSet (P : Set Pt) (d : ℝ) : Set Pt :=
  {p | ∀ q, dist q p ≤ d → q ∈ P}

/-- Modelled from the spec: shapely `geometry.buffer(d)` — erosion for a
negative distance, dilation otherwise (`buffer(0)` is the repair step). -/
def bufferGeom (P : Set Pt) (d : ℝ) : Set Pt :=
  if d < 0 then erodeSet P (-d) else dilate P d

/-- Modelled from the spec: the `buildable_area` computation of src/code.py
lines 78-85 on one parcel — project to the metric CRS (`toMetric`), erode by
the setback, repair with a zero buffer, and reproject back. -/
def buildable_area (toMetric : Pt ≃ Pt) (geometry : Set Pt) (setback : ℝ) : Set Pt :=
  Set.image toMetric.symm
    (bufferGeom (bufferGeom (Set.image toMetric geometry) (-setback)) 0)

end IllegalConstruction

namespace IllegalConstruction

/-! ## Theorems -/

/-- C1: The violation classifier is a pure total function of the two booleans
realizing the §4.5 truth table on each of the four input combinations —
`Both` when both flags are set, `Height` when only the height flag is set,
`Boundary` when only the boundary flag is set, and `None` when neither is —
so every input yields exactly one of the four (pairwise distinct) labels. -/
theorem classify_violation_truth_table :
    classify_violation true true = "Both" ∧
    classify_violation true false = "Height" ∧
    classify_violation false true = "Boundary" ∧
    classify_violation false false = "None" :=
  ⟨rfl, rfl, rfl, rfl⟩

/-- C7: every pixel of the height raster equals the surface value minus the
resampled terrain value clamped below at zero, hence is never negative; and
when the clipped surface array equals the resampled terrain array everywhere,
the height raster is identically zero. -/
theorem height_map_clamped (m n : ℕ) (dsm_array resampled_dtm : Fin m → Fin n → ℚ) :
    (∀ i j, height_map m n dsm_array resampled_dtm i j =
        max (dsm_array i j - resampled_dtm i j) 0 ∧
      0 ≤ height_map m n dsm_array resampled_dtm i j) ∧
    (dsm_array = resampled_dtm → ∀ i j, height_map m n dsm_array resampled_dtm i j = 0) := by
  constructor
  · intro i j
    constructor
    · simp only [height_map, clampNeg, rasterSub]
      split
      · rename_i hlt
        rw [max_eq_right (le_of_lt hlt)]
      · rename_i hge
        rw [max_eq_left (le_of_not_lt hge)]
    · simp only [height_map, clampNeg, rasterSub]
      split
      · exact le_refl 0
      · rename_i hge
        exact le_of_not_lt hge
  · intro h i j
    simp [height_map, clampNeg, rasterSub, h]

/-- Witness for C7 at a concrete 1×1 raster with equal surface and terrain. -/
theorem height_map_clamped_witness :
    height_map 1 1 (fun _ _ => (5 : ℚ)) (fun _ _ => (5 : ℚ)) 0 0 = 0 :=
  (height_map_clamped 1 1 (fun _ _ => (5 : ℚ)) (fun _ _ => (5 : ℚ))).2 rfl 0 0

/-- C5 counterexample: the claim says a present-but-unparsable height tag
falls back to the levels estimate (here `4 * 3 = 12`) instead of aborting;
but `float("12 m")` raises `ValueError`, so `est_height` aborts the run and
does not return the fallback value. -/
theorem est_height_unparsable_aborts :
    est_height (some "12 m") (some "4") = .error () := rfl

/-- C5 (amended): the precedence rule holds — a parsable height tag wins, an
absent or empty height tag falls through to the levels tag, a parsable levels
tag yields `levels * 3`, and neither tag yields an unknown height — but a
present (truthy) tag whose value does not parse raises `ValueError` and
aborts the run instead of falling back to the next case. -/
theorem est_height_precedence (height levels : Option String) :
    (∀ s v, height = some s → pyFloat? s = some v →
      est_height height levels = .ok (some v)) ∧
    (∀ s, height = some s → s ≠ "" → pyFloat? s = none →
      est_height height levels = .error ()) ∧
    (truthy height = false → ∀ s n, levels = some s → pyInt? s = some n →
      est_height height levels = .ok (some ((n : ℚ) * 3))) ∧
    (truthy height = false → ∀ s, levels = some s → s ≠ "" → pyInt? s = none →
      est_height height levels = .error ()) ∧
    (truthy height = false → truthy levels = false →
      est_height height levels = .ok none) := by
  refine ⟨?_, ?_, ?_, ?_, ?_⟩
  · rintro s v rfl hv
    have hs : s ≠ "" := by
      rintro rfl
      simp [show pyFloat? "" = none from rfl] at hv
    have ht : truthy (some s) = true := by simp [truthy, hs]
    simp [est_height, ht, Option.getD, hv]
  · rintro s rfl hs hv
    have ht : truthy (some s) = true := by simp [truthy, hs]
    simp [est_height, ht, Option.getD, hv]
  · rintro hh s n rfl hv
    have hs : s ≠ "" := by
      rintro rfl
      simp [show pyInt? "" = none from rfl] at hv
    have ht : truthy (some s) = true := by simp [truthy, hs]
    simp [est_height, hh, ht, Option.getD, hv]
  · rintro hh s rfl hs hv
    have ht : truthy (some s) = true := by simp [truthy, hs]
    simp [est_height, hh, ht, Option.getD, hv]
  · intro hh hl
    simp [est_height, hh, hl]

/-- Witness for C5 (amended) on concrete tags: an absent height tag with
levels tag `"4"` estimates `4 * 3 = 12`. -/
theorem est_height_precedence_witness :
    est_height none (some "4") = .ok (some ((4 : ℚ) * 3)) :=
  (est_height_precedence none (some "4")).2.2.1 rfl "4" 4 rfl (by decide)

/-- The ring stored by the shapely `Polygon` constructor is closed: its first
and last coordinates coincide. -/
theorem polygonRing_closed (l : List Coord) :
    (polygonRing l).head? = (polygonRing l).getLast? := by
  cases l with
  | nil => rfl
  | cons p t =>
    have hd : polygonRing (p :: t) =
        if (p :: t).getLast? = some p then p :: t else (p :: t) ++ [p] := rfl
    rw [hd]
    by_cases h : (p :: t).getLast? = some p
    · rw [if_pos h, List.head?_cons, h]
    · rw [if_neg h, List.getLast?_concat, List.cons_append, List.head?_cons]

/-- A successful loop iteration emits a feature exactly when the element is a
building-tagged way with at least 3 resolvable coordinates, and any emitted
feature keeps those coordinates as its geometry. -/
theorem buildFeature_spec (els : List Element) (e : Element)
    (r : Option (Building (List Coord))) (h : buildFeature els e = .ok r) :
    (∀ b, r = some b → emitsBuilding els e = true ∧ 3 ≤ b.geometry.length) ∧
    (r = none → emitsBuilding els e = false) := by
  cases e with
  | node i lo la =>
    simp only [buildFeature] at h
    injection h with h
    subst h
    exact ⟨fun b hb => Option.noConfusion hb, fun _ => rfl⟩
  | way nodes tags =>
    by_cases hk : hasKey tags "building" = true
    · by_cases hlen : 3 ≤ (coordsOf els nodes).length
      · simp only [buildFeature, hk, if_true, hlen] at h
        rcases hest : est_height (getTag tags "height") (getTag tags "building:levels") with
          err | hgt
        · rw [hest] at h
          exact absurd h (by simp)
        · rw [hest] at h
          injection h with h
          subst h
          constructor
          · intro b hb
            injection hb with hb
            subst hb
            exact ⟨by simp [emitsBuilding, hk, hlen], hlen⟩
          · intro hb
            exact Option.noConfusion hb
      · simp only [buildFeature, hk, if_true, hlen] at h
        injection h with h
        subst h
        exact ⟨fun b hb => Option.noConfusion hb,
          fun _ => by simp [emitsBuilding, hk, hlen]⟩
    · simp only [buildFeature, hk] at h
      injection h with h
      subst h
      refine ⟨fun b hb => Option.noConfusion hb, fun _ => ?_⟩
      have hkf : hasKey tags "building" = false := by
        revert hk
        cases hasKey tags "building" <;> simp
      simp [emitsBuilding, hkf]

/-- When the reconstruction loop over a suffix of the element list succeeds,
every emitted building has at least 3 coordinates and the number of emitted
buildings is exactly the number of elements passing the emission gates. -/
theorem reconstructAux_spec (els : List Element) :
    ∀ (l : List Element) (bs), reconstructAux els l = .ok bs →
      (∀ b ∈ bs, 3 ≤ b.geometry.length) ∧ bs.length = l.countP (emitsBuilding els) := by
  intro l
  induction l with
  | nil =>
    intro bs h
    simp only [reconstructAux] at h
    injection h with h
    subst h
    simp
  | cons e rest ih =>
    intro bs h
    simp only [reconstructAux] at h
    rcases hbf : buildFeature els e with err | b?
    · rw [hbf] at h
      exact absurd h (by simp)
    · rw [hbf] at h
      rcases hra : reconstructAux els rest with err | bs'
      · rw [hra] at h
        exact absurd h (by simp)
      · rw [hra] at h
        injection h with h
        obtain ⟨ih1, ih2⟩ := ih bs' hra
        obtain ⟨hsome, hnone⟩ := buildFeature_spec els e b? hbf
        cases b? with
        | none =>
          subst h
          refine ⟨ih1, ?_⟩
          rw [List.countP_cons, hnone rfl]
          simp [ih2]
        | some b =>
          subst h
          constructor
          · intro x hx
            rcases List.mem_cons.1 hx with hx | hx
            · subst hx
              exact (hsome x rfl).2
            · exact ih1 x hx
          · rw [List.countP_cons, (hsome b rfl).1]
            simp [ih2, Nat.add_comm]

/-- C6 (amended): a way with fewer than 3 resolvable node coordinates never
yields a building — whenever the reconstruction run succeeds, the emitted
buildings are exactly the building-tagged ways with at least 3 resolvable
coordinates (counted with multiplicity), each with a closed polygon ring; the
3 coordinates need not be distinct. -/
theorem reconstruct_geometry (els : List Element) (bs : List (Building (List Coord)))
    (h : reconstruct els = .ok bs) :
    (∀ b ∈ bs, 3 ≤ b.geometry.length ∧
      (polygonRing b.geometry).head? = (polygonRing b.geometry).getLast?) ∧
    bs.length = els.countP (emitsBuilding els) := by
  obtain ⟨h1, h2⟩ := reconstructAux_spec els els bs h
  exact ⟨fun b hb => ⟨h1 b hb, polygonRing_closed _⟩, h2⟩

/-- Witness for C6 (amended) on the concrete triangle export. -/
theorem reconstruct_geometry_witness :
    (∀ b ∈ sampleBuildings, 3 ≤ b.geometry.length ∧
      (polygonRing b.geometry).head? = (polygonRing b.geometry).getLast?) ∧
    sampleBuildings.length = sampleElements.countP (emitsBuilding sampleElements) :=
  reconstruct_geometry sampleElements sampleBuildings rfl

/-- C6 counterexample: the way `[1, 2, 1]` resolves to 3 coordinates, so it
passes the `len(coords) >= 3` gate and is emitted, yet its geometry has only
2 distinct vertices — refuting the claim that every emitted building has at
least 3 distinct vertices. -/
theorem reconstruct_distinct_cex :
    (reconstruct [Element.node 1 0 0, Element.node 2 1 0,
        Element.way [1, 2, 1] [("building", "yes")]]).map
      (fun bs => bs.map fun b => (b.geometry.dedup.length, b.geometry.length)) =
    .ok [(2, 3)] := rfl

/-- Every record a single building contributes to the join comes from a
parcel whose geometry contains the building, found at positional index
`index_right - i` of the remaining parcel list. -/
theorem sjoinZones_mem {G : Type} (w : G → G → Bool) (b : Building G) :
    ∀ (i : ℕ) (zs : List (Zone G)) (r : JoinRec G), r ∈ sjoinZones w b i zs →
      i ≤ r.index_right ∧ ∃ z, zs[r.index_right - i]? = some z ∧
        w b.geometry z.geometry = true ∧
        r = { geometry := b.geometry, height := b.height, name := b.name,
              levels := b.levels, index_right := r.index_right,
              maxHeight := z.maxHeight, setback := z.setback } := by
  intro i zs
  induction zs generalizing i with
  | nil => intro r hr; simp [sjoinZones] at hr
  | cons z zr ih =>
    intro r hr
    simp only [sjoinZones] at hr
    by_cases hw : w b.geometry z.geometry = true
    · rw [if_pos hw] at hr
      rcases List.mem_cons.1 hr with hr | hr
      · subst hr
        refine ⟨le_refl _, z, ?_, hw, rfl⟩
        simp
      · obtain ⟨hle, z', hz', hw', heq⟩ := ih (i + 1) r hr
        refine ⟨le_trans (Nat.le_succ i) hle, z', ?_, hw', heq⟩
        have hstep : r.index_right - i = (r.index_right - (i + 1)) + 1 := by omega
        rw [hstep, List.getElem?_cons_succ]
        exact hz'
    · rw [if_neg hw] at hr
      obtain ⟨hle, z', hz', hw', heq⟩ := ih (i + 1) r hr
      refine ⟨le_trans (Nat.le_succ i) hle, z', ?_, hw', heq⟩
      have hstep : r.index_right - i = (r.index_right - (i + 1)) + 1 := by omega
      rw [hstep, List.getElem?_cons_succ]
      exact hz'

/-- Every record in the spatial-join output comes from some input building
and the parcel at its `index_right`, which contains the building. -/
theorem sjoin_mem {G : Type} (w : G → G → Bool) :
    ∀ (bs : List (Building G)) (zs : List (Zone G)) (r : JoinRec G),
      r ∈ sjoin w bs zs →
      ∃ b ∈ bs, ∃ z, zs[r.index_right]? = some z ∧ w b.geometry z.geometry = true ∧
        r = { geometry := b.geometry, height := b.height, name := b.name,
              levels := b.levels, index_right := r.index_right,
              maxHeight := z.maxHeight, setback := z.setback } := by
  intro bs
  induction bs with
  | nil => intro zs r hr; simp [sjoin] at hr
  | cons b br ih =>
    intro zs r hr
    simp only [sjoin] at hr
    rcases List.mem_append.1 hr with hr | hr
    · obtain ⟨_, z, hz, hw, heq⟩ := sjoinZones_mem w b 0 zs r hr
      rw [Nat.sub_zero] at hz
      exact ⟨b, List.mem_cons_self b br, z, hz, hw, heq⟩
    · obtain ⟨b', hb', rest⟩ := ih zs r hr
      exact ⟨b', List.mem_cons_of_mem b hb', rest⟩

/-- One building contributes exactly one join record per containing parcel. -/
theorem sjoinZones_length {G : Type} (w : G → G → Bool) (b : Building G) :
    ∀ (i : ℕ) (zs : List (Zone G)),
      (sjoinZones w b i zs).length =
        (zs.filter fun z => w b.geometry z.geometry).length := by
  intro i zs
  induction zs generalizing i with
  | nil => rfl
  | cons z zr ih =>
    cases hw : w b.geometry z.geometry with
    | true => simp [sjoinZones, List.filter_cons, hw, ih (i + 1)]
    | false => simp [sjoinZones, List.filter_cons, hw, ih (i + 1)]

/-- The size of the spatial-join output: the sum over buildings of the number
of parcels containing each. -/
theorem sjoin_length {G : Type} (w : G → G → Bool) :
    ∀ (bs : List (Building G)) (zs : List (Zone G)),
      (sjoin w bs zs).length =
        (bs.map fun b => (zs.filter fun z => w b.geometry z.geometry).length).sum := by
  intro bs zs
  induction bs with
  | nil => rfl
  | cons b br ih =>
    simp only [sjoin, List.length_append, List.map_cons, List.sum_cons, ih,
      sjoinZones_length w b 0 zs]

/-- C4 (amended): the spatial join is an inner containment join that never
crashes — its output has one record per (building, containing parcel) pair
(so a building within no parcel is dropped, and a building within several
overlapping parcels appears once per such parcel, in parcel order, rather
than being assigned to a single deterministically chosen parcel), and every
record carries its building's attributes and its parcel's attributes. -/
theorem sjoin_spec {G : Type} (w : G → G → Bool) (bs : List (Building G))
    (zs : List (Zone G)) :
    (sjoin w bs zs).length =
      (bs.map fun b => (zs.filter fun z => w b.geometry z.geometry).length).sum ∧
    ∀ r ∈ sjoin w bs zs, ∃ b ∈ bs, ∃ z, zs[r.index_right]? = some z ∧
      w b.geometry z.geometry = true ∧ r.geometry = b.geometry ∧
      r.height = b.height ∧ r.name = b.name ∧ r.maxHeight = z.maxHeight ∧
      r.setback = z.setback := by
  refine ⟨sjoin_length w bs zs, ?_⟩
  intro r hr
  obtain ⟨b, hb, z, hz, hw, heq⟩ := sjoin_mem w bs zs r hr
  refine ⟨b, hb, z, hz, hw, ?_, ?_, ?_, ?_, ?_⟩ <;> rw [heq]

/-- Witness for C4 (amended): a building contained in the single parcel of a
one-parcel store yields exactly one join record. -/
theorem sjoin_spec_witness :
    (sjoin (fun a b : ℕ => a == b)
        [({ geometry := 1, height := none, name := "b", levels := none } : Building ℕ)]
        [({ geometry := 1, maxHeight := 10.5, setback := 5.0 } : Zone ℕ)]).length =
      ([({ geometry := 1, height := none, name := "b", levels := none } : Building ℕ)].map
        fun b => (([({ geometry := 1, maxHeight := 10.5, setback := 5.0 } : Zone ℕ)]).filter
          fun z => b.geometry == z.geometry).length).sum :=
  (sjoin_spec (fun a b : ℕ => a == b)
    [{ geometry := 1, height := none, name := "b", levels := none }]
    [{ geometry := 1, maxHeight := 10.5, setback := 5.0 }]).1

/-- C4 counterexample: a single building lying within both of two overlapping
parcels yields two join records (`index_right` 0 and 1) — `sjoin` duplicates
the building rather than deterministically picking one parcel, refuting
"every building appears in the output associated with at most one parcel". -/
theorem sjoin_overlap_cex :
    (sjoin (fun _ _ => true)
        [({ geometry := 0, height := none, name := "b", levels := none } : Building ℕ)]
        [({ geometry := 1, maxHeight := 10.5, setback := 5.0 } : Zone ℕ),
         { geometry := 2, maxHeight := 10.5, setback := 5.0 }]).map
      (fun r => r.index_right) = [0, 1] := rfl

/-- When every record's `index_right` is a valid parcel index, step 9
succeeds and pairs each record with the boundary flag computed from the
looked-up parcel's buildable area. -/
theorem check_boundary_sound {G : Type} (w : G → G → Bool) (zbs : List (ZoneB G)) :
    ∀ (recs : List (JoinRec G)), (∀ r ∈ recs, r.index_right < zbs.length) →
      ∃ l, check_boundary w zbs recs = some l ∧
        ∀ p ∈ l, p.1 ∈ recs ∧ ∃ z, zbs[p.1.index_right]? = some z ∧
          p.2 = !(w p.1.geometry z.buildable_area) := by
  intro recs
  induction recs with
  | nil =>
    intro _
    exact ⟨[], rfl, fun p hp => absurd hp (List.not_mem_nil p)⟩
  | cons r rest ih =>
    intro hva
    have hr : r.index_right < zbs.length := hva r (List.mem_cons_self r rest)
    obtain ⟨z, hz⟩ : ∃ z, zbs[r.index_right]? = some z :=
      ⟨_, List.getElem?_eq_getElem hr⟩
    obtain ⟨l, hl, hmem⟩ := ih (fun x hx => hva x (List.mem_cons_of_mem r hx))
    refine ⟨(r, !(w r.geometry z.buildable_area)) :: l, ?_, ?_⟩
    · simp only [check_boundary, hz, hl, Option.map_some']
    · intro p hp
      rcases List.mem_cons.1 hp with hp | hp
      · subst hp
        exact ⟨List.mem_cons_self r rest, z, hz, rfl⟩
      · obtain ⟨hpmem, z', hz', hpv⟩ := hmem p hp
        exact ⟨List.mem_cons_of_mem r hpmem, z', hz', hpv⟩

/-- Under the same validity condition, steps 9-11 succeed and every output
record carries the boundary flag of its looked-up parcel, the height flag
computed by `heightGt`, and the classifier's label. -/
theorem annotate_sound {G : Type} (w : G → G → Bool) (zbs : List (ZoneB G))
    (recs : List (JoinRec G)) (hva : ∀ r ∈ recs, r.index_right < zbs.length) :
    ∃ l, annotate w zbs recs = some l ∧
      ∀ a ∈ l, a.toJoinRec ∈ recs ∧
        (∃ z, zbs[a.index_right]? = some z ∧
          a.boundary_violation = !(w a.geometry z.buildable_area)) ∧
        a.violation = heightGt a.height a.maxHeight ∧
        a.violation_type = classify_violation a.violation a.boundary_violation := by
  obtain ⟨lb, hlb, hmem⟩ := check_boundary_sound w zbs recs hva
  refine ⟨lb.map (fun p => ⟨p.1, p.2, heightGt p.1.height p.1.maxHeight,
    classify_violation (heightGt p.1.height p.1.maxHeight) p.2⟩), ?_, ?_⟩
  · simp [annotate, hlb]
  · intro a ha
    obtain ⟨p, hp, rfl⟩ := List.mem_map.1 ha
    obtain ⟨hpm, z, hz, hpv⟩ := hmem p hp
    exact ⟨hpm, ⟨z, hz, hpv⟩, rfl, rfl⟩

/-- The fields steps 10-11 compute, for any successful annotation run. -/
theorem annotate_fields {G : Type} (w : G → G → Bool) (zbs : List (ZoneB G))
    (recs : List (JoinRec G)) (l : List (AnnRec G)) (h : annotate w zbs recs = some l) :
    ∀ a ∈ l, a.violation = heightGt a.height a.maxHeight ∧
      a.violation_type = classify_violation a.violation a.boundary_violation := by
  intro a ha
  simp only [annotate] at h
  obtain ⟨lb, hlb, rfl⟩ := Option.map_eq_some'.1 h
  obtain ⟨p, hp, rfl⟩ := List.mem_map.1 ha
  exact ⟨rfl, rfl⟩

/-- Indices produced by the spatial join are valid into the buildable-area
frame, which has one row per parcel. -/
theorem sjoin_index_valid {G : Type} (w : G → G → Bool) (toUtm fromUtm : G → G)
    (buf : G → ℚ → G) (bs : List (Building G)) (zs : List (Zone G)) :
    ∀ r ∈ sjoin w bs zs,
      r.index_right < (addBuildable toUtm fromUtm buf zs).length := by
  intro r hr
  obtain ⟨b, hb, z, hz, _⟩ := sjoin_mem w bs zs r hr
  have hlt : r.index_right < zs.length := (List.getElem?_eq_some_iff.1 hz).1
  simpa [addBuildable] using hlt

/-- C2: the pipeline's boundary step always succeeds on the spatial-join
output, and every resulting record's `boundary_violation` is true exactly
when the building's geometry is not within the `buildable_area` of the parcel
it was joined to (the row looked up by its `index_right`). -/
theorem boundary_violation_spec {G : Type} (w : G → G → Bool) (toUtm fromUtm : G → G)
    (buf : G → ℚ → G) (bs : List (Building G)) (zs : List (Zone G)) :
    ∃ l, annotate w (addBuildable toUtm fromUtm buf zs) (sjoin w bs zs) = some l ∧
      ∀ a ∈ l, ∃ z, (addBuildable toUtm fromUtm buf zs)[a.index_right]? = some z ∧
        (a.boundary_violation = true ↔ w a.geometry z.buildable_area = false) := by
  obtain ⟨l, hl, hmem⟩ := annotate_sound w (addBuildable toUtm fromUtm buf zs)
    (sjoin w bs zs) (sjoin_index_valid w toUtm fromUtm buf bs zs)
  refine ⟨l, hl, ?_⟩
  intro a ha
  obtain ⟨_, ⟨z, hz, hbv⟩, _, _⟩ := hmem a ha
  refine ⟨z, hz, ?_⟩
  rw [hbv]
  cases w a.geometry z.buildable_area <;> simp

/-- Witness for C2 on a one-building, one-parcel pipeline run. -/
theorem boundary_violation_spec_witness :
    ∃ l, annotate (fun a b : ℕ => a == b)
        (addBuildable id id (fun g _ => g)
          [({ geometry := 1, maxHeight := 10.5, setback := 5.0 } : Zone ℕ)])
        (sjoin (fun a b : ℕ => a == b)
          [({ geometry := 1, height := some 12, name := "b", levels := none } : Building ℕ)]
          [({ geometry := 1, maxHeight := 10.5, setback := 5.0 } : Zone ℕ)]) = some l ∧
      ∀ a ∈ l, ∃ z, (addBuildable id id (fun g _ => g)
          [({ geometry := 1, maxHeight := 10.5, setback := 5.0 } : Zone ℕ)])[a.index_right]? =
            some z ∧
        (a.boundary_violation = true ↔ (a.geometry == z.buildable_area) = false) :=
  boundary_violation_spec (fun a b : ℕ => a == b) id id (fun g _ => g)
    [{ geometry := 1, height := some 12, name := "b", levels := none }]
    [{ geometry := 1, maxHeight := 10.5, setback := 5.0 }]

/-- C3: in any successful annotation run, a record's `violation` flag is true
exactly when its height is known and exceeds its `Max Height`, and a record
with unknown height is never flagged (pandas `NaN > x` is `False`). -/
theorem height_violation_spec {G : Type} (w : G → G → Bool) (zbs : List (ZoneB G))
    (recs : List (JoinRec G)) (l : List (AnnRec G)) (h : annotate w zbs recs = some l) :
    ∀ a ∈ l, (a.violation = true ↔ ∃ v, a.height = some v ∧ a.maxHeight < v) ∧
      (a.height = none → a.violation = false) := by
  intro a ha
  rw [(annotate_fields w zbs recs l h a ha).1]
  rcases hx : a.height with _ | v
  · simp [heightGt]
  · simp [heightGt]

/-- Witness for C3 on a concrete run: the record of a height-12 building
against a 10.5-metre limit is flagged exactly because `12 > 10.5`. -/
theorem height_violation_spec_witness :
    (annRecFix.violation = true ↔ ∃ v, annRecFix.height = some v ∧ annRecFix.maxHeight < v) ∧
    (annRecFix.height = none → annRecFix.violation = false) :=
  height_violation_spec (fun a b : ℕ => a == b) [zoneBFix] [joinRecFix] [annRecFix]
    rfl annRecFix (List.mem_singleton.mpr rfl)

/-- C9 (amended): an empty `buildable_area` (a geometry that contains no
building geometry, as shapely's `within` is false against an empty polygon)
propagates through steps 9-11 without error, but a building joined to such a
parcel is always classified as a boundary violation — its `violation_type`
is never `"None"` — rather than as "no violation possible". -/
theorem empty_buildable_flags_violation {G : Type} (w : G → G → Bool)
    (toUtm fromUtm : G → G) (buf : G → ℚ → G) (bs : List (Building G))
    (zs : List (Zone G)) :
    ∃ l, annotate w (addBuildable toUtm fromUtm buf zs) (sjoin w bs zs) = some l ∧
      ∀ a ∈ l, ∀ z, (addBuildable toUtm fromUtm buf zs)[a.index_right]? = some z →
        (∀ g, w g z.buildable_area = false) →
        a.boundary_violation = true ∧ a.violation_type ≠ "None" := by
  obtain ⟨l, hl, hmem⟩ := annotate_sound w (addBuildable toUtm fromUtm buf zs)
    (sjoin w bs zs) (sjoin_index_valid w toUtm fromUtm buf bs zs)
  refine ⟨l, hl, ?_⟩
  intro a ha z hz hempty
  obtain ⟨_, ⟨z', hz', hbv⟩, _, htype⟩ := hmem a ha
  rw [hz] at hz'
  injection hz' with hz'
  subst hz'
  have hbt : a.boundary_violation = true := by
    rw [hbv, hempty a.geometry]
    rfl
  refine ⟨hbt, ?_⟩
  rw [htype, hbt]
  cases hv : a.violation <;> decide

/-- Witness for C9 (amended): concrete one-building, one-parcel run where the
buildable area is the empty geometry (id 2, contained-in by nothing). -/
theorem empty_buildable_flags_violation_witness :
    ∃ l, annotate (fun g p : ℕ => g == 0 && p == 1)
        (addBuildable id id (fun _ _ => 2)
          [({ geometry := 1, maxHeight := 10, setback := 5 } : Zone ℕ)])
        (sjoin (fun g p : ℕ => g == 0 && p == 1)
          [({ geometry := 0, height := some 3, name := "b", levels := none } : Building ℕ)]
          [({ geometry := 1, maxHeight := 10, setback := 5 } : Zone ℕ)]) = some l ∧
      ∀ a ∈ l, ∀ z, (addBuildable id id (fun _ _ => 2)
          [({ geometry := 1, maxHeight := 10, setback := 5 } : Zone ℕ)])[a.index_right]? =
            some z →
        (∀ g, (g == 0 && z.buildable_area == 1) = false) →
        a.boundary_violation = true ∧ a.violation_type ≠ "None" :=
  empty_buildable_flags_violation (fun g p : ℕ => g == 0 && p == 1) id id (fun _ _ => 2)
    [{ geometry := 0, height := some 3, name := "b", levels := none }]
    [{ geometry := 1, maxHeight := 10, setback := 5 }]

/-- C9 counterexample: the parcel's buildable area is empty — here geometry
id 2, with the containment oracle returning false for every geometry against
it, exactly as shapely's `within` does against an empty polygon. The empty
result propagates without error, but the joined building is classified
`"Boundary"`, refuting the claim that it is not classified as a boundary
violation. -/
theorem empty_buildable_cex :
    (annotate (fun g p : ℕ => g == 0 && p == 1)
        (addBuildable id id (fun _ _ => 2)
          [({ geometry := 1, maxHeight := 10, setback := 5 } : Zone ℕ)])
        (sjoin (fun g p : ℕ => g == 0 && p == 1)
          [({ geometry := 0, height := some 3, name := "b", levels := none } : Building ℕ)]
          [({ geometry := 1, maxHeight := 10, setback := 5 } : Zone ℕ)])).map
      (fun l => l.map fun a => (a.boundary_violation, a.violation_type)) =
    some [(true, "Boundary")] := rfl

/-- All parcels carry the constant attributes after loading and
reprojection. -/
theorem zones_loaded_attrs {G : Type} (f : G → G) (raw : List (RawParcel G)) :
    ∀ z ∈ toCrsZones f (loadZones raw), z.maxHeight = 10.5 ∧ z.setback = 5.0 := by
  intro z hz
  simp only [toCrsZones, loadZones, List.map_map, List.mem_map] at hz
  obtain ⟨r, _, rfl⟩ := hz
  exact ⟨rfl, rfl⟩

/-- C10: after loading, every parcel's `Max Height` is 10.5 and `Setback` is
5.0 no matter what attribute values the input carried, this assignment
survives reprojection and the buildable-area stage unchanged, and every
spatial-join record carries the same constant limits, so all buildings are
evaluated against the same 10.5/5.0 regardless of their parcel. -/
theorem zones_constant_attributes {G : Type} (f toUtm fromUtm : G → G)
    (buf : G → ℚ → G) (w : G → G → Bool) (raw : List (RawParcel G))
    (bs : List (Building G)) :
    (∀ zb ∈ addBuildable toUtm fromUtm buf (toCrsZones f (loadZones raw)),
      zb.maxHeight = 10.5 ∧ zb.setback = 5.0) ∧
    (∀ r ∈ sjoin w bs (toCrsZones f (loadZones raw)),
      r.maxHeight = 10.5 ∧ r.setback = 5.0) := by
  constructor
  · intro zb hzb
    simp only [addBuildable, List.mem_map] at hzb
    obtain ⟨z, hz, rfl⟩ := hzb
    exact zones_loaded_attrs f raw z hz
  · intro r hr
    obtain ⟨b, hb, z, hz, hw, heq⟩ := sjoin_mem w bs _ r hr
    have hzmem : z ∈ toCrsZones f (loadZones raw) := List.getElem?_mem hz
    have hattr := zones_loaded_attrs f raw z hzmem
    constructor
    · rw [heq]
      exact hattr.1
    · rw [heq]
      exact hattr.2

/-- Witness for C10: a raw parcel carrying `maxHeight = 99`, `setback = 0`
still ends up with the constant 10.5/5.0 attributes everywhere. -/
theorem zones_constant_attributes_witness :
    (∀ zb ∈ addBuildable id id (fun g _ => g)
        (toCrsZones id (loadZones [({ geometry := 7, maxHeight := 99, setback := 0 } : RawParcel ℕ)])),
      zb.maxHeight = 10.5 ∧ zb.setback = 5.0) ∧
    (∀ r ∈ sjoin (fun _ _ => true)
        [({ geometry := 7, height := none, name := "b", levels := none } : Building ℕ)]
        (toCrsZones id (loadZones [({ geometry := 7, maxHeight := 99, setback := 0 } : RawParcel ℕ)])),
      r.maxHeight = 10.5 ∧ r.setback = 5.0) :=
  zones_constant_attributes id id id (fun g _ => g) (fun _ _ => true)
    [{ geometry := 7, maxHeight := 99, setback := 0 }]
    [{ geometry := 7, height := none, name := "b", levels := none }]

/-- Dilating by a zero distance changes nothing. -/
theorem dilate_zero (P : Set Pt) : dilate P 0 = P := by
  ext p
  simp only [dilate, Set.mem_setOf_eq]
  constructor
  · rintro ⟨q, hq, hd⟩
    have hpq : p = q := dist_le_zero.1 hd
    rwa [hpq]
  · intro hp
    exact ⟨p, hp, by simp⟩

/-- Erosion by a non-negative distance shrinks the set. -/
theorem erodeSet_subset (P : Set Pt) {d : ℝ} (h : 0 ≤ d) : erodeSet P d ⊆ P := by
  intro p hp
  exact hp p (by simpa [dist_self] using h)

/-- Buffering by a non-positive distance never grows the set. -/
theorem bufferGeom_nonpos_subset (P : Set Pt) {d : ℝ} (h : d ≤ 0) :
    bufferGeom P d ⊆ P := by
  unfold bufferGeom
  split
  · rename_i hlt
    exact erodeSet_subset P (by linarith)
  · rename_i hnot
    have hd : d = 0 := le_antisymm h (not_lt.1 hnot)
    subst hd
    rw [dilate_zero]

/-- The zero-distance repair buffer is the identity in the set model. -/
theorem bufferGeom_zero (P : Set Pt) : bufferGeom P 0 = P := by
  unfold bufferGeom
  rw [if_neg (lt_irrefl (0 : ℝ)), dilate_zero]

/-- C8: for a non-negative setback, the derived buildable area — the parcel
geometry projected to the metric CRS, eroded by the setback, repaired with a
zero-distance buffer, and reprojected back — is a subset of the parcel
geometry (exactly so in this idealized model, where the claim's tolerance
allowance covers floating-point reprojection error). -/
theorem buildable_area_subset (toMetric : Pt ≃ Pt) (geometry : Set Pt)
    (setback : ℝ) (h : 0 ≤ setback) :
    buildable_area toMetric geometry setback ⊆ geometry := by
  intro x hx
  unfold buildable_area at hx
  rw [bufferGeom_zero] at hx
  obtain ⟨y, hy, rfl⟩ := hx
  have hy' : y ∈ Set.image toMetric geometry :=
    bufferGeom_nonpos_subset _ (neg_nonpos.2 h) hy
  obtain ⟨p, hp, rfl⟩ := hy'
  simpa using hp

/-- Witness for C8 with the identity reprojection, the full plane as parcel,
and the script's setback of 5. -/
theorem buildable_area_subset_witness :
    (0 : ℝ) ≤ 5 ∧ buildable_area (Equiv.refl Pt) Set.univ 5 ⊆ Set.univ :=
  ⟨by norm_num, buildable_area_subset (Equiv.refl Pt) Set.univ 5 (by norm_num)⟩

end IllegalConstruction
